import Mathlib

/-!
Shallow embedding of the core of the `prog_models` repository for checking its
natural-language specification.

Part 1 embeds `src/src/prog_models/utils/containers_v15.py`
(`DictLikeMatrixWrapper`): a dictionary-like container backed by a matrix of
numeric values.  Machine floats carry no claim-relevant rounding here (values
are only stored and retrieved), so numeric entries are modelled as `Rat`.
Python exceptions are modelled by an explicit error type, and the fact that the
dict branch of `__init__` never assigns `self.matrix` (the assignment sits
inside a dead triple-quoted string literal in the source) is modelled by an
`Option` for the `matrix` attribute.
-/

namespace ProgModels

/-- A Python value stored into / read out of a container row: either a scalar
(`row[0]` in the non-vectorized case) or a row vector (vectorized case). -/
inductive PyVal where
  | scalar (x : Rat)
  | array (xs : List Rat)
deriving DecidableEq, Repr

/-- Python exceptions raised by the embedded code. `attributeError` models
access to `self.matrix` when the attribute was never assigned; `indexError`
models an out-of-range numpy index; the string-carrying constructors keep the
exact message. `ProgModelTypeError` subclasses `TypeError` (the tests catch it
with `assertRaises(TypeError)`), so it is modelled as `typeError`. -/
inductive PyErr where
  | attributeError
  | indexError
  | valueError (msg : String)
  | typeError (msg : String)
deriving DecidableEq, Repr

/-- State of a `DictLikeMatrixWrapper` instance: the `_keys` list and the
`matrix` attribute.  `matrix = none` means the attribute was never assigned
(the dict branch of `__init__` in `containers_v15.py`). -/
structure DictLikeMatrixWrapper where
  keys : List String
  matrix : Option (List (List Rat))
deriving DecidableEq, Repr

/-- The dynamic type of the `data` argument of `DictLikeMatrixWrapper.__init__`:
a 1-D numpy array, a 2-D numpy array, a dict mapping field names to scalar
values, or any other Python value (carrying the rendering of its type, as
Python would interpolate `type(data)` into the error message). -/
inductive InitData where
  | ndarray1 (v : List Rat)
  | ndarray2 (m : List (List Rat))
  | dict (d : List (String × Rat))
  | other (typeName : String)
deriving DecidableEq, Repr

/-- Membership of a key in a Python dict modelled as an association list. -/
def dictHasKey (d : List (String × Rat)) (k : String) : Bool :=
  d.any (fun kv => kv.1 == k)

/-- `DictLikeMatrixWrapper.__init__` (containers_v15.py lines 20-52).
* np.ndarray, 1-D: `data = data[np.newaxis].T` makes an n-by-1 column, and
  `pd.DataFrame(data, self._keys)` raises a `ValueError` unless the row count
  equals the key count; `self.matrix` is the column.
* np.ndarray, 2-D: `pd.DataFrame(data, self._keys)` likewise checks the row
  count; `self.matrix = data`.
* dict (or another wrapper): the branch only computes the local `bool_test`
  array and discards it; the assignments to `self.data` / `self.matrix` are
  inside a dead `"""..."""` string literal, so the attribute stays unset.
* anything else: `ProgModelTypeError` naming the offending type. -/
def DictLikeMatrixWrapper.init (keys : List String) (data : InitData) :
    Except PyErr DictLikeMatrixWrapper :=
  match data with
  | .ndarray1 v =>
      if v.length = keys.length then
        .ok ⟨keys, some (v.map (fun x => [x]))⟩
      else
        .error (.valueError "Shape of passed values does not match the index length")
  | .ndarray2 m =>
      if m.length = keys.length then
        .ok ⟨keys, some m⟩
      else
        .error (.valueError "Shape of passed values does not match the index length")
  | .dict _ =>
      .ok ⟨keys, none⟩
  | .other typeName =>
      .error (.typeError ("Data must be a dictionary or numpy array, not " ++ typeName))

/-- `__getitem__` (lines 60-67): `row = self.matrix[self._keys.index(key)]`;
returns `row[0]` when the row has exactly one entry, else the whole row.
Reading `self.matrix` when it was never assigned raises `AttributeError`;
`list.index` raises `ValueError` for a missing key; an out-of-range row index
raises `IndexError`. -/
def DictLikeMatrixWrapper.getItem (c : DictLikeMatrixWrapper) (key : String) :
    Except PyErr PyVal :=
  match c.keys.findIdx? (fun k => k == key) with
  | Option.none => .error (.valueError (key ++ " is not in list"))
  | some i =>
      match c.matrix with
      | Option.none => .error .attributeError
      | some m =>
          match m.get? i with
          | Option.none => .error .indexError
          | some row =>
              match row with
              | [x] => .ok (.scalar x)
              | _ => .ok (.array row)

/-- `get` (lines 127-133): `if key in self._keys: return self[key]` else the
default. `Option.none` as default models Python `None` (the default default). -/
def DictLikeMatrixWrapper.get (c : DictLikeMatrixWrapper) (key : String)
    (default : Option PyVal) : Except PyErr (Option PyVal) :=
  if c.keys.contains key then
    (c.getItem key).map some
  else
    .ok default

/-- `np.atleast_1d(value)`: a scalar becomes a one-element array, an array
stays itself. -/
def atleast1d (v : PyVal) : List Rat :=
  match v with
  | .scalar x => [x]
  | .array xs => xs

/-- Numpy row assignment `matrix[index] = atleast_1d(value)`: a one-element
value broadcasts over the row, an equal-length value replaces it elementwise,
anything else raises a broadcast `ValueError`. -/
def setRow (row : List Rat) (v : PyVal) : Except PyErr (List Rat) :=
  match atleast1d v with
  | [x] => .ok (List.replicate row.length x)
  | xs =>
      if xs.length = row.length then .ok xs
      else .error (.valueError "could not broadcast input array")

/-- `__setitem__` (lines 69-74): `index = self._keys.index(key)` (raising
`ValueError` for a missing key) and then `self.matrix[index] = np.atleast_1d(value)`
(raising `AttributeError` when `self.matrix` was never assigned).  The
operation either raises without mutating or replaces exactly one row. -/
def DictLikeMatrixWrapper.setItem (c : DictLikeMatrixWrapper) (key : String)
    (v : PyVal) : Except PyErr DictLikeMatrixWrapper :=
  match c.keys.findIdx? (fun k => k == key) with
  | Option.none => .error (.valueError (key ++ " is not in list"))
  | some i =>
      match c.matrix with
      | Option.none => .error .attributeError
      | some m =>
          match m.get? i with
          | Option.none => .error .indexError
          | some row =>
              match setRow row v with
              | .error e => .error e
              | .ok newRow => .ok ⟨c.keys, some (m.set i newRow)⟩

/-- `__delitem__` (lines 76-81): `self.matrix = np.delete(self.matrix,
self._keys.index(key), axis=0)` and then `self._keys.remove(key)`.  The key
index is computed first (`ValueError` when absent), then `self.matrix` is read
(`AttributeError` when unset); `np.delete` drops the row and `list.remove`
drops the first occurrence of the key. -/
def DictLikeMatrixWrapper.delItem (c : DictLikeMatrixWrapper) (key : String) :
    Except PyErr DictLikeMatrixWrapper :=
  match c.keys.findIdx? (fun k => k == key) with
  | Option.none => .error (.valueError (key ++ " is not in list"))
  | some i =>
      match c.matrix with
      | Option.none => .error .attributeError
      | some m =>
          if i < m.length then
            .ok ⟨c.keys.erase key, some (m.eraseIdx i)⟩
          else .error .indexError

/-- `np.array([other[key]])` in `update`: one new matrix row (a scalar becomes
a one-entry row, a row vector stays a row). -/
def npArrayRow (v : PyVal) : List Rat :=
  match v with
  | .scalar x => [x]
  | .array xs => xs

/-- One iteration of `update`'s loop (lines 165-176) over a key of `other`.
For an existing key: `self[key] = other[key]` (no mutation on an exception).
For a new key the source runs `self._keys.append(key)` BEFORE evaluating
`np.vstack((self.matrix, np.array([other[key]])))`, so when reading
`self.matrix`, reading `other[key]` or the `vstack` itself raises, the key has
already been appended while the matrix is unchanged.  The result is the
(possibly partially) mutated `self` plus the exception, if any. -/
def updateStep (acc other : DictLikeMatrixWrapper) (key : String) :
    DictLikeMatrixWrapper × Option PyErr :=
  if acc.keys.contains key then
    match other.getItem key with
    | .error e => (acc, some e)
    | .ok v =>
        match acc.setItem key v with
        | .error e => (acc, some e)
        | .ok acc' => (acc', Option.none)
  else
    let accK : DictLikeMatrixWrapper := ⟨acc.keys ++ [key], acc.matrix⟩
    match accK.matrix with
    | Option.none => (accK, some .attributeError)
    | some m =>
        match other.getItem key with
        | .error e => (accK, some e)
        | .ok v =>
            let row := npArrayRow v
            match m with
            | [] => ({ accK with matrix := some [row] }, Option.none)
            | r0 :: _ =>
                if row.length = r0.length then
                  ({ accK with matrix := some (m ++ [row]) }, Option.none)
                else
                  (accK, some (.valueError
                    "all the input array dimensions except for the concatenation axis must match exactly"))

/-- The loop of `update` over `other.keys()`, stopping at the first exception
(which propagates in Python) and returning the state `self` was left in. -/
def updateGo (other : DictLikeMatrixWrapper) :
    DictLikeMatrixWrapper → List String → DictLikeMatrixWrapper × Option PyErr
  | acc, [] => (acc, Option.none)
  | acc, k :: ks =>
      match updateStep acc other k with
      | (acc', some e) => (acc', some e)
      | (acc', Option.none) => updateGo other acc' ks

/-- `update` (lines 165-176): merge `other` into `self`, overwriting existing
keys in place and appending a key and a matrix row for each unseen key. -/
def DictLikeMatrixWrapper.update (c other : DictLikeMatrixWrapper) :
    DictLikeMatrixWrapper × Option PyErr :=
  updateGo other c other.keys

/-- Row count of the backing matrix (0 when the attribute was never set). -/
def DictLikeMatrixWrapper.rows (c : DictLikeMatrixWrapper) : Nat :=
  match c.matrix with
  | Option.none => 0
  | some m => m.length

/-- The container invariant from the spec: the backing matrix, when assigned,
has one row per field name. -/
def DictLikeMatrixWrapper.inv (c : DictLikeMatrixWrapper) : Prop :=
  ∀ m, c.matrix = some m → m.length = c.keys.length

instance (c : DictLikeMatrixWrapper) : Decidable c.inv := by
  unfold DictLikeMatrixWrapper.inv
  cases h : c.matrix with
  | none => exact isTrue (by simp [h])
  | some m => exact decidable_of_iff (m.length = c.keys.length) (by simp [h])

/-!
Heap model of matrix aliasing.  Numpy arrays are mutable objects on the Python
heap; `copy()` (lines 135-139) builds a new wrapper from `self.matrix.copy()`,
a freshly allocated array with the same contents, which `__init__`'s ndarray
branch then stores as the new wrapper's `matrix`.  To state that the backing
matrices of a wrapper and its copy are not aliased, matrices live in an
explicit heap of cells and wrappers hold a cell reference. -/

/-- The heap of live matrix objects: cell `r` holds the matrix of any wrapper
whose reference is `r`. -/
structure Heap where
  cells : List (List (List Rat))
deriving DecidableEq, Repr

/-- A wrapper whose `matrix` attribute is a reference into the heap
(`none` when the attribute was never assigned). -/
structure WrapperRef where
  keys : List String
  ref : Option Nat
deriving DecidableEq, Repr

/-- Contents of heap cell `r` (empty matrix for a dangling reference, which
never arises for references the allocator handed out). -/
def Heap.read (h : Heap) (r : Nat) : List (List Rat) :=
  (h.cells.get? r).getD []

/-- In-place overwrite of heap cell `r`. -/
def Heap.write (h : Heap) (r : Nat) (m : List (List Rat)) : Heap :=
  ⟨h.cells.set r m⟩

/-- Allocation of a fresh matrix object: a new cell at the end of the heap. -/
def Heap.alloc (h : Heap) (m : List (List Rat)) : Heap × Nat :=
  (⟨h.cells ++ [m]⟩, h.cells.length)

/-- `copy` (lines 135-139): `DictLikeMatrixWrapper(self._keys, self.matrix.copy())`.
`self.matrix.copy()` allocates a fresh array holding the same entries, and the
2-D ndarray branch of `__init__` (after the `pd.DataFrame` row-count check)
stores that same fresh object as the new wrapper's `matrix`. -/
def WrapperRef.copy (h : Heap) (c : WrapperRef) :
    Except PyErr (Heap × WrapperRef) :=
  match c.ref with
  | Option.none => .error .attributeError
  | some r =>
      let m := h.read r
      if m.length = c.keys.length then
        let alloc := h.alloc m
        .ok (alloc.1, ⟨c.keys, some alloc.2⟩)
      else
        .error (.valueError "Shape of passed values does not match the index length")

/-- `__setitem__` acting on the heap: the row assignment mutates the wrapper's
own matrix cell in place (the shared `setRow` gives numpy's broadcast
semantics), so other wrappers change exactly when they alias that cell. -/
def WrapperRef.setItem (h : Heap) (c : WrapperRef) (key : String) (v : PyVal) :
    Except PyErr Heap :=
  match c.keys.findIdx? (fun k => k == key) with
  | Option.none => .error (.valueError (key ++ " is not in list"))
  | some i =>
      match c.ref with
      | Option.none => .error .attributeError
      | some r =>
          let m := h.read r
          match m.get? i with
          | Option.none => .error .indexError
          | some row =>
              match setRow row v with
              | .error e => .error e
              | .ok newRow => .ok (h.write r (m.set i newRow))

/-- `__eq__` (lines 101-113), wrapper-against-wrapper branch:
`self.keys() == other.keys()` and `(self.matrix == other.matrix).all()`
(elementwise equality of equal-shaped arrays; numpy yields `False` for
non-broadcastable shapes).  Reading a never-assigned `matrix` raises. -/
def WrapperRef.eq (h : Heap) (c d : WrapperRef) : Except PyErr Bool :=
  match c.ref, d.ref with
  | some r, some r' =>
      .ok (decide (c.keys = d.keys) && decide (h.read r = h.read r'))
  | _, _ => .error .attributeError

/-!
Part 2: the error-calculation subsystem (`calc_error`).  The repository's
files under `src/` contain only the test suite for it
(`src/tests/test_calc_error.py`); the implementation itself
(`PrognosticsModel.calc_error`) is not among the staged files, so it is
modelled from the spec (section 4.4, validation pipeline and re-simulation /
instability policy), with the exact error and warning messages taken from the
assertions of the staged test suite.  The model covers the numeric-list /
dict / nested-list fragment of the dynamic argument shapes, the shape, arity
and minimum-length validation, the `stability_tol` clamping and the NaN
instability cutoff; the `method` selection always computes MSE (no claim
concerns the other metrics). -/

/-- A Python value passed to `calc_error` as (part of) `times`, `inputs` or
`outputs`: a number, a leaf dict (an input/output container literal), or a
list of such values. -/
inductive PyData where
  | num (q : Rat)
  | dict (d : List (String × Rat))
  | list (xs : List PyData)

/-- A float that may be NaN: the result of re-simulating the model can turn
non-finite.  Ordinary values are `fin`; no claim depends on float rounding. -/
inductive ExtRat where
  | fin (q : Rat)
  | nan
deriving DecidableEq, Repr

/-- A user-visible warning emitted by `calc_error`, as a structured event.
`message` renders the exact text asserted by the test suite. -/
inductive Warning where
  | stabilityTolReset (received : Rat)
  | modelUnstable (tFail : Rat)
deriving DecidableEq, Repr

/-- Rendering of a Rat the way Python renders a float (trailing `.0` for
integral values; non-integral values fall back to the Rat rendering and are
not exercised by any verified scenario). -/
def fmtFloat (q : Rat) : String :=
  if q.den = 1 then toString q.num ++ ".0" else toString q

/-- Rendering of a Rat the way Python renders the number the caller passed
(integers bare, as in `Received 10.`). -/
def fmtNum (q : Rat) : String :=
  if q.den = 1 then toString q.num else toString q

/-- Exact warning texts from `test_calc_error.py` (lines 83-86 and 152-158). -/
def Warning.message : Warning → String
  | .stabilityTolReset received =>
      "Configurable cutoff must be some float value in the domain (0, 1]. Received "
        ++ fmtNum received ++ ". Resetting value to 0.95."
  | .modelUnstable tFail =>
      "Model unstable- NaN reached in simulation (t=" ++ fmtFloat tFail ++ ")"

/-- A data location inside a nested multi-run structure, rendered as a tuple
of indices: `(0)`, `(0, 1)` (test assertions at lines 207, 216, 233, 243). -/
def locTuple (loc : List Nat) : String :=
  "(" ++ String.intercalate ", " (loc.map toString) ++ ")"

/-- The optional location suffix of the length-mismatch, minimum-length and
type error messages: empty at top level, else the tuple rendering. -/
def locSuffixTuple (loc : List Nat) : String :=
  if loc.isEmpty then "" else " at data location " ++ locTuple loc

/-- The optional location suffix of the iterability-raggedness message, which
renders the location bare (`at data location 0`, test line 353), not as a
tuple. -/
def locSuffixBare (loc : List Nat) : String :=
  if loc.isEmpty then "" else
    " at data location " ++ String.intercalate ", " (loc.map toString)

/-- Length-mismatch message (test lines 196-199, 206-209, 232-235). -/
def lengthsMsg (loc : List Nat) (nt ni no : Nat) : String :=
  "Times, inputs, and outputs must all be the same length. Current lengths"
    ++ locSuffixTuple loc ++ ": times = " ++ toString nt
    ++ ", inputs = " ++ toString ni ++ ", outputs = " ++ toString no ++ "."

/-- Iterability-raggedness message (test lines 332-335, 352-355). -/
def someIterMsg (arg : String) (loc : List Nat) : String :=
  "Some, but not all elements, are iterable for argument " ++ arg
    ++ locSuffixBare loc ++ "."

/-- Minimum-length message (test lines 242-245, 298-301, 315-318). -/
def twoPointsMsg (loc : List Nat) : String :=
  "Must provide at least 2 data points for times, inputs, and outputs"
    ++ locSuffixTuple loc ++ "."

/-- Fatal-instability message (test lines 46-49): the failure time, the cutoff
value and the cutoff percentage. -/
def unstableErrMsg (tFail cutoff tol : Rat) : String :=
  "Model unstable- NAN reached in simulation (t=" ++ fmtFloat tFail
    ++ ") before cutoff threshold. Cutoff threshold is " ++ fmtFloat cutoff
    ++ ", or roughly " ++ fmtFloat (tol * 100) ++ "% of the data"

/-- Argument type message of the shape check (test lines 279-293). -/
def typesMsg (loc : List Nat) (tt ti tz : String) : String :=
  "Types passed in must be from the following: np.ndarray, list, SimResult, or LazySimResult. Current types"
    ++ locSuffixTuple loc ++ ": times = " ++ tt ++ ", inputs = " ++ ti
    ++ ", and outputs = " ++ tz ++ "."

/-- The Python type name of a modelled value, for the shape-check message. -/
def PyData.typeName : PyData → String
  | .num _ => "int"
  | .dict _ => "dict"
  | .list _ => "list"

/-- Whether a value counts as iterable run data for the shape classification:
lists are, numbers and leaf dict containers are not. -/
def PyData.isIter : PyData → Bool
  | .list _ => true
  | _ => false

/-- Some, but not all, elements iterable (the ragged case of the shape check). -/
def mixedIter (xs : List PyData) : Bool :=
  xs.any PyData.isIter && xs.any (fun x => !x.isIter)

/-- One leaf run after validation: paired (time, input, output) samples. -/
structure LeafRun where
  times : List Rat
  inputs : List (List (String × Rat))
  outputs : List (List (String × Rat))
deriving DecidableEq, Repr

/-- Leaf extraction of the time values of a run (every element is a number
once the leaf passed the iterability check on numeric data). -/
def extractTimes : List PyData → Except PyErr (List Rat)
  | [] => .ok []
  | .num q :: rest => (extractTimes rest).map (fun ts => q :: ts)
  | x :: _ => .error (.typeError ("unsupported leaf time value of type " ++ x.typeName))

/-- Leaf extraction of the input/output containers of a run: each element is
handed to the container constructor, which rejects non-dict data (the
`DictLikeMatrixWrapper.__init__` type error surfaces through `calc_error`,
test lines 262-276). -/
def extractDicts : List PyData → Except PyErr (List (List (String × Rat)))
  | [] => .ok []
  | .dict d :: rest => (extractDicts rest).map (fun ds => d :: ds)
  | x :: _ =>
      .error (.typeError ("Data must be a dictionary or numpy array, not <class " ++ x.typeName ++ ">"))

/-- Iteration over the aligned elements of a multi-run level: each position is
validated by `child` at its own data location (the index is appended to the
location only when the level holds more than one run, matching the test suite:
the singly-wrapped run of test lines 304-309 reports no location while the
two-run inputs of lines 312-318 report `(0)`).  The first exception stops the
loop, as in Python. -/
def runsFold (child : List Nat → PyData → PyData → PyData → Except PyErr (List LeafRun))
    (loc : List Nat) (app : Bool) :
    Nat → List PyData → List PyData → List PyData → Except PyErr (List LeafRun)
  | _, [], _, _ => .ok []
  | idx, t :: ts, i :: is, o :: os => do
      let childLoc := if app then loc ++ [idx] else loc
      let rs ← child childLoc t i o
      let rest ← runsFold child loc app (idx + 1) ts is os
      pure (rs ++ rest)
  | _, _, _, _ => .ok []

/-- Modelled from the spec: the shape/arity validation pipeline of
`calc_error` (spec section 4.4 steps 1-3; the implementation is not among the
staged files, only its test suite is).  At each nesting level, in order:
the three arguments must be list-like (step 1, type message of test lines
279-293); their element counts must agree (step 2, message of lines 196-218
and 230-235, location as an index tuple); no argument may have some but not
all elements iterable (ragged structure, message of lines 330-355, location
rendered bare); a level whose `times` elements are all iterable recurses into
its runs, and a leaf run must hold at least 2 samples (step 3, message of
lines 240-245 and 295-318) before its values are extracted.  The `fuel`
argument only bounds the recursion depth so that the definition is structural
(every call from `calcError` supplies more fuel than the data has depth). -/
def validateRuns : Nat → List Nat → PyData → PyData → PyData →
    Except PyErr (List LeafRun)
  | 0, _, _, _, _ => .error (.valueError "maximum recursion depth exceeded")
  | fuel + 1, loc, times, inputs, outputs =>
      match times, inputs, outputs with
      | .list ts, .list is, .list os =>
          if ts.length = is.length ∧ is.length = os.length then
            if mixedIter ts then
              .error (.valueError (someIterMsg "times" loc))
            else if mixedIter is then
              .error (.valueError (someIterMsg "inputs" loc))
            else if mixedIter os then
              .error (.valueError (someIterMsg "outputs" loc))
            else if ts.all PyData.isIter && !ts.isEmpty then
              runsFold (validateRuns fuel) loc (decide (1 < ts.length)) 0 ts is os
            else
              if ts.length < 2 then
                .error (.valueError (twoPointsMsg loc))
              else do
                let rts ← extractTimes ts
                let ris ← extractDicts is
                let ros ← extractDicts os
                pure [⟨rts, ris, ros⟩]
          else
            .error (.valueError (lengthsMsg loc ts.length is.length os.length))
      | t, i, o =>
          .error (.typeError (typesMsg loc t.typeName i.typeName o.typeName))

mutual

/-- Structural size of a PyData value, used as recursion fuel: strictly larger
than the nesting depth, so `validateRuns` never runs out. -/
def pyFuel : PyData → Nat
  | .num _ => 1
  | .dict _ => 1
  | .list xs => pyFuelList xs + 1

/-- Structural size of a list of PyData values. -/
def pyFuelList : List PyData → Nat
  | [] => 0
  | x :: xs => pyFuel x + pyFuelList xs

end

/-- The model's re-simulation, abstracted: from the step size `dt` and a leaf
run's time and input trajectories, the simulated output dict at each saved
time point (NaN entries model numerical divergence).  `calc_error` treats the
model as a black box through this function. -/
def SimFn : Type :=
  Rat → List Rat → List (List (String × Rat)) → List (List (String × ExtRat))

/-- Index of the first sample whose simulated output contains a NaN entry. -/
def firstNanIdx (zs : List (List (String × ExtRat))) : Option Nat :=
  zs.findIdx? (fun z => z.any (fun kv => kv.2 == ExtRat.nan))

/-- Observed value of field `k` in an output dict (0 for a missing field;
the verified scenarios always carry the field). -/
def dictLookup (d : List (String × Rat)) (k : String) : Rat :=
  (((d.find? (fun kv => kv.1 == k)).map (fun kv => kv.2)).getD 0)

/-- Squared-difference contribution of one (observed, simulated) sample pair:
the sum over the simulated fields of the squared difference against the
observed value, and the number of field comparisons.  NaN entries contribute
nothing (they are cut off before this point in every reachable call). -/
def sampleSq (obs : List (String × Rat)) (sim : List (String × ExtRat)) :
    Rat × Nat :=
  sim.foldl
    (fun acc kv =>
      match kv.2 with
      | .fin v => (acc.1 + (dictLookup obs kv.1 - v) ^ 2, acc.2 + 1)
      | .nan => acc)
    (0, 0)

/-- Total squared error and comparison count over a list of paired samples. -/
def accumSq : List (List (String × Rat) × List (String × ExtRat)) → Rat × Nat
  | [] => (0, 0)
  | (obs, sim) :: rest =>
      let s := sampleSq obs sim
      let r := accumSq rest
      (s.1 + r.1, s.2 + r.2)

/-- Modelled from the spec: re-simulation and instability policy for one leaf
run (spec section 4.4; the implementation is not among the staged files).
The model is re-simulated over the run's own times and inputs; if some output
turns NaN first at sample `j`, the failure time `times[j]` is compared with
the cutoff `stability_tol` times the run's duration: strictly before the
cutoff the run fails with the `ValueError` of test lines 44-49, at or after
it a `UserWarning` is emitted (test lines 80-86) and only the samples before
`j` contribute to the metric. -/
def processRun (sim : SimFn) (dt tol : Rat) (run : LeafRun) :
    Except PyErr (List Warning × Rat × Nat) :=
  let zsim := sim dt run.times run.inputs
  match firstNanIdx zsim with
  | Option.none =>
      let s := accumSq (run.outputs.zip zsim)
      .ok ([], s.1, s.2)
  | some j =>
      let tFail := run.times.getD j 0
      let cutoff := tol * run.times.getLastD 0
      if tFail < cutoff then
        .error (.valueError (unstableErrMsg tFail cutoff tol))
      else
        let s := accumSq ((run.outputs.zip zsim).take j)
        .ok ([Warning.modelUnstable tFail], s.1, s.2)

/-- Aggregation across all leaf runs: warnings concatenate, squared errors and
comparison counts add, the first exception aborts. -/
def processAll (sim : SimFn) (dt tol : Rat) :
    List LeafRun → Except PyErr (List Warning × Rat × Nat)
  | [] => .ok ([], 0, 0)
  | r :: rs => do
      let a ← processRun sim dt tol r
      let b ← processAll sim dt tol rs
      pure (a.1 ++ b.1, a.2.1 + b.2.1, a.2.2 + b.2.2)

instance {e a : Type} [DecidableEq e] [DecidableEq a] : DecidableEq (Except e a) :=
  fun x y =>
  match x, y with
  | .ok x, .ok y => decidable_of_iff (x = y) (by simp)
  | .error x, .error y => decidable_of_iff (x = y) (by simp)
  | .ok _, .error _ => isFalse (by simp)
  | .error _, .ok _ => isFalse (by simp)

/-- The outcome of a `calc_error` call: the user-visible warnings emitted, and
either the metric value or the exception raised. -/
structure CalcOutcome where
  warnings : List Warning
  result : Except PyErr Rat
deriving DecidableEq, Repr

/-- Modelled from the spec: `calc_error(times, inputs, outputs, method='mse',
dt=..., stability_tol=0.95)` (spec section 4.4; the implementation is not
among the staged files, only `src/tests/test_calc_error.py` is).  The
validation pipeline runs in the spec's order, each failure terminal: the
type/shape/minimum-length checks (steps 1-3, `validateRuns`) come first, then
`dt` must be positive (step 4), then `stability_tol` outside (0, 1] is reset
to the default 0.95 with a warning rather than an error (step 5, test lines
152-158) - so the reset warning is only reached by calls whose data passed
steps 1-3 and whose `dt` passed step 4.  The MSE is the total squared
difference over all runs, fields and stable samples divided by the comparison
count. -/
def calcError (sim : SimFn) (times inputs outputs : PyData) (dt : Rat)
    (stabilityTol : Rat) : CalcOutcome :=
  match validateRuns (pyFuel times) [] times inputs outputs with
  | .error e => ⟨[], .error e⟩
  | .ok runs =>
      if dt ≤ 0 then
        ⟨[], .error (.valueError
          "Keyword argument 'dt' must a initialized to a value greater than 0.")⟩
      else
        let tolPair :=
          if 0 < stabilityTol ∧ stabilityTol ≤ 1 then
            (stabilityTol, ([] : List Warning))
          else (mkRat 95 100, [Warning.stabilityTolReset stabilityTol])
        match processAll sim dt tolPair.1 runs with
        | .error e => ⟨tolPair.2, .error e⟩
        | .ok (ws, s, c) => ⟨tolPair.2 ++ ws, .ok (s / c)⟩

/-- A model as `calc_error` sees it: its parameter mapping determines, through
the model class's (deterministic, noise-free) dynamics, the re-simulated
outputs.  Two independently constructed instances of one class share the
`dynamics` function and differ only in `params`. -/
def modelCalcError (dynamics : List (String × Rat) → SimFn)
    (params : List (String × Rat)) (times inputs outputs : PyData)
    (dt stabilityTol : Rat) : CalcOutcome :=
  calcError (dynamics params) times inputs outputs dt stabilityTol

/-- PyData builders for a leaf run, used to state the claims: a leaf run is a
list of numeric times, a list of input dicts and a list of output dicts. -/
def leafTimes (r : LeafRun) : PyData := .list (r.times.map PyData.num)

/-- Input dicts of a leaf run as PyData. -/
def leafInputs (r : LeafRun) : PyData := .list (r.inputs.map PyData.dict)

/-- Output dicts of a leaf run as PyData. -/
def leafOutputs (r : LeafRun) : PyData := .list (r.outputs.map PyData.dict)

/-- PyData builders for a two-level multi-run structure: one list of leaf
runs per argument. -/
def multiTimes (rs : List LeafRun) : PyData := .list (rs.map leafTimes)

/-- Input side of a two-level multi-run structure. -/
def multiInputs (rs : List LeafRun) : PyData := .list (rs.map leafInputs)

/-- Output side of a two-level multi-run structure. -/
def multiOutputs (rs : List LeafRun) : PyData := .list (rs.map leafOutputs)

/-- Boolean substring test on the character lists of two strings, used to
state what an error message does and does not contain. -/
def charsContain (hay needle : List Char) : Bool :=
  match hay with
  | [] => needle.isEmpty
  | _ :: rest => needle.isPrefixOf hay || charsContain rest needle

/-- Whether `needle` occurs as a substring of `hay`. -/
def strContains (hay needle : String) : Bool :=
  charsContain hay.data needle.data

/-- Heap-level `__getitem__`, reading the wrapper's matrix cell: used to state
that every field of a wrapper is unchanged by a write through another
wrapper. -/
def WrapperRef.getItem (h : Heap) (c : WrapperRef) (key : String) :
    Except PyErr PyVal :=
  match c.keys.findIdx? (fun k => k == key) with
  | Option.none => .error (.valueError (key ++ " is not in list"))
  | some i =>
      match c.ref with
      | Option.none => .error .attributeError
      | some r =>
          match (h.read r).get? i with
          | Option.none => .error .indexError
          | some row =>
              match row with
              | [x] => .ok (.scalar x)
              | _ => .ok (.array row)

/-! Helper lemmas. -/

theorem mem_of_findIdx_beq {l : List String} {key : String} :
    ∀ {i0 i : Nat}, l.findIdx? (fun k => k == key) i0 = some i → key ∈ l := by
  induction l with
  | nil => intro i0 i h; simp [List.findIdx?] at h
  | cons a l ih =>
      intro i0 i h
      rw [List.findIdx?_cons] at h
      by_cases ha : a == key
      · exact (eq_of_beq ha) ▸ List.mem_cons_self a l
      · simp only [ha, if_neg] at h
        simp only [Bool.false_eq_true, if_false] at h
        exact List.mem_cons_of_mem a (ih h)

theorem inv_setItem {c c' : DictLikeMatrixWrapper} {key : String} {v : PyVal}
    (hinv : c.inv) (h : c.setItem key v = .ok c') : c'.inv := by
  unfold DictLikeMatrixWrapper.setItem at h
  cases hf : c.keys.findIdx? (fun k => k == key) with
  | none => simp only [hf] at h; exact absurd h (by simp)
  | some i =>
      simp only [hf] at h
      cases hm : c.matrix with
      | none => exact absurd h (by simp [hm])
      | some m =>
          simp only [hm] at h
          cases hr : m.get? i with
          | none => rw [hr] at h; exact absurd h (by simp)
          | some row =>
              simp only [hr] at h
              cases hs : setRow row v with
              | error e => rw [hs] at h; exact absurd h (by simp)
              | ok newRow =>
                  simp only [hs, Except.ok.injEq] at h
                  cases h
                  intro m' hm'
                  cases hm'
                  simpa [List.length_set] using hinv m hm

theorem inv_delItem {c c' : DictLikeMatrixWrapper} {key : String}
    (hinv : c.inv) (h : c.delItem key = .ok c') :
    c'.inv ∧ c'.keys = c.keys.erase key ∧ c'.rows + 1 = c.rows := by
  unfold DictLikeMatrixWrapper.delItem at h
  cases hf : c.keys.findIdx? (fun k => k == key) with
  | none => simp only [hf] at h; exact absurd h (by simp)
  | some i =>
      simp only [hf] at h
      cases hm : c.matrix with
      | none => exact absurd h (by simp [hm])
      | some m =>
          simp only [hm] at h
          by_cases hi : i < m.length
          · rw [if_pos hi] at h
            simp only [Except.ok.injEq] at h
            cases h
            have hmem : key ∈ c.keys := mem_of_findIdx_beq hf
            have hlen : m.length = c.keys.length := hinv m hm
            have herase : (c.keys.erase key).length = c.keys.length - 1 :=
              List.length_erase_of_mem hmem
            have hkpos : 0 < c.keys.length := List.length_pos.mpr
              (fun hnil => by simp [hnil] at hmem)
            refine ⟨?_, rfl, ?_⟩
            · intro m' hm'
              cases hm'
              rw [List.length_eraseIdx, if_pos hi, hlen, herase]
            · simp only [DictLikeMatrixWrapper.rows, hm]
              rw [List.length_eraseIdx, if_pos hi]
              omega
          · rw [if_neg hi] at h
            exact absurd h (by simp)

theorem inv_updateStep {acc acc' other : DictLikeMatrixWrapper} {key : String}
    (hinv : acc.inv) (h : updateStep acc other key = (acc', Option.none)) :
    acc'.inv := by
  unfold updateStep at h
  by_cases hc : acc.keys.contains key
  · rw [if_pos hc] at h
    cases hg : other.getItem key with
    | error e => simp only [hg, Prod.mk.injEq] at h; exact absurd h.2 (by simp)
    | ok v =>
        simp only [hg] at h
        cases hs : acc.setItem key v with
        | error e => simp only [hs, Prod.mk.injEq] at h; exact absurd h.2 (by simp)
        | ok acc'' =>
            simp only [hs, Prod.mk.injEq] at h
            obtain ⟨h1, -⟩ := h
            cases h1
            exact inv_setItem hinv hs
  · rw [if_neg hc] at h
    cases hm : acc.matrix with
    | none =>
        simp only [hm, Prod.mk.injEq] at h
        exact absurd h.2 (by simp)
    | some m =>
        simp only [hm] at h
        cases hg : other.getItem key with
        | error e => simp only [hg, Prod.mk.injEq] at h; exact absurd h.2 (by simp)
        | ok v =>
            simp only [hg] at h
            cases m with
            | nil =>
                simp only [Prod.mk.injEq] at h
                obtain ⟨h1, -⟩ := h
                cases h1
                intro m' hm'
                cases hm'
                have := hinv [] hm
                simp at this
                simp [this]
            | cons r0 rest =>
                simp only [] at h
                split at h
                · simp only [Prod.mk.injEq] at h
                  obtain ⟨h1, -⟩ := h
                  cases h1
                  intro m' hm'
                  cases hm'
                  have hlen := hinv (r0 :: rest) hm
                  simp only [List.length_append, List.length_cons,
                    List.length_nil] at hlen ⊢
                  omega
                · simp only [Prod.mk.injEq] at h
                  exact absurd h.2 (by simp)

theorem inv_updateGo {other : DictLikeMatrixWrapper} :
    ∀ (ks : List String) (acc : DictLikeMatrixWrapper), acc.inv →
      (updateGo other acc ks).2 = Option.none → (updateGo other acc ks).1.inv := by
  intro ks
  induction ks with
  | nil => intro acc hinv _; simpa [updateGo] using hinv
  | cons k ks ih =>
      intro acc hinv hnone
      unfold updateGo at hnone ⊢
      cases hs : updateStep acc other k with
      | mk acc' e =>
          cases e with
          | none =>
              simp only [hs]
              exact ih acc' (inv_updateStep hinv hs)
                (by simpa [hs] using hnone)
          | some err => simp [hs] at hnone

theorem getItemH_congr (hA hB : Heap) {c : WrapperRef} {r : Nat}
    (hr : c.ref = some r) (hread : hB.read r = hA.read r) :
    ∀ key, WrapperRef.getItem hB c key = WrapperRef.getItem hA c key := by
  intro key
  unfold WrapperRef.getItem
  simp only [hr, hread]

theorem read_write_ne {h : Heap} {r r' : Nat} {m : List (List Rat)}
    (hne : r' ≠ r) : (h.write r' m).read r = h.read r := by
  unfold Heap.read Heap.write
  rw [List.get?_set_ne _ _ hne]

theorem setItemH_preserves_other {h h'' : Heap} {c : WrapperRef} {rc : Nat}
    {key : String} {v : PyVal} (hc : c.ref = some rc)
    (hset : WrapperRef.setItem h c key v = .ok h'') :
    ∀ q, rc ≠ q → h''.read q = h.read q := by
  intro q hne
  unfold WrapperRef.setItem at hset
  cases hf : c.keys.findIdx? (fun k => k == key) with
  | none => rw [hf] at hset; exact absurd hset (by simp)
  | some i =>
      simp only [hf, hc] at hset
      cases hr : (h.read rc).get? i with
      | none => rw [hr] at hset; exact absurd hset (by simp)
      | some row =>
          simp only [hr] at hset
          cases hs : setRow row v with
          | error e => rw [hs] at hset; exact absurd hset (by simp)
          | ok newRow =>
              simp only [hs, Except.ok.injEq] at hset
              rw [← hset]
              exact read_write_ne hne

/-! Claim theorems for the container. -/

/-- C3 (code evidence for the bug): constructing a `DictLikeMatrixWrapper`
from a mapping succeeds but leaves the `matrix` attribute unassigned (the
assignments of the dict branch sit in a dead string literal), so a subsequent
`__getitem__` or `get` on a field name raises `AttributeError` instead of
returning the stored scalar. -/
theorem dict_init_leaves_matrix_unset :
    DictLikeMatrixWrapper.init ["a"] (.dict [("a", 1)]) =
      .ok ⟨["a"], Option.none⟩ ∧
    (DictLikeMatrixWrapper.mk ["a"] Option.none).getItem "a" =
      .error .attributeError ∧
    (DictLikeMatrixWrapper.mk ["a"] Option.none).get "a" Option.none =
      .error .attributeError := by
  decide

/-- C7: constructing a `DictLikeMatrixWrapper` from a value of an unsupported
data type (not a dict, wrapper or numpy array) fails with a type error whose
message names the offending type, e.g. bool. -/
theorem init_rejects_unsupported_type :
    (∀ (keys : List String) (typeName : String),
        DictLikeMatrixWrapper.init keys (.other typeName) =
          .error (.typeError
            ("Data must be a dictionary or numpy array, not " ++ typeName))) ∧
    DictLikeMatrixWrapper.init ["a", "b"] (.other "<class 'bool'>") =
      .error (.typeError "Data must be a dictionary or numpy array, not <class 'bool'>") :=
  ⟨fun _ _ => rfl, rfl⟩

/-- C10: `get` returns the supplied default (Python `None` when no default is
given) for a key that is not among the field names, without raising, and for a
present key it returns exactly what `__getitem__` returns (wrapped in `some`
because the embedded `get` may also return the `None` default). -/
theorem get_returns_default_or_item :
    ∀ (c : DictLikeMatrixWrapper) (key : String) (default : Option PyVal),
      (key ∉ c.keys → c.get key default = .ok default) ∧
      (key ∈ c.keys → c.get key default = (c.getItem key).map some) := by
  intro c key default
  constructor
  · intro hmem
    unfold DictLikeMatrixWrapper.get
    rw [if_neg (fun hc => hmem (List.elem_iff.mp hc))]
  · intro hmem
    unfold DictLikeMatrixWrapper.get
    rw [if_pos (List.elem_iff.mpr hmem)]

/-- Witness for C10 at a concrete container: a missing key yields the default,
a present key yields the `__getitem__` result. -/
theorem get_returns_default_or_item_witness :
    ((DictLikeMatrixWrapper.mk ["a"] (some [[3]])).get "z" (some (.scalar 7)) =
      .ok (some (.scalar 7))) ∧
    ((DictLikeMatrixWrapper.mk ["a"] (some [[3]])).get "a" Option.none =
      ((DictLikeMatrixWrapper.mk ["a"] (some [[3]])).getItem "a").map some) :=
  ⟨(get_returns_default_or_item ⟨["a"], some [[3]]⟩ "z" (some (.scalar 7))).1
      (by decide),
   (get_returns_default_or_item ⟨["a"], some [[3]]⟩ "a" Option.none).2
      (by decide)⟩

/-- C6 counterexample: an `update` whose `vstack` fails (the new row has a
different column count) has already appended the new key, so it returns with
the row count no longer equal to the field count, refuting the claim that
every mutating operation preserves the invariant. -/
theorem update_vstack_mismatch_breaks_invariant :
    (DictLikeMatrixWrapper.mk ["a"] (some [[1, 2]])).inv ∧
    (DictLikeMatrixWrapper.mk ["b"] (some [[5]])).inv ∧
    ((DictLikeMatrixWrapper.mk ["a"] (some [[1, 2]])).update
        (DictLikeMatrixWrapper.mk ["b"] (some [[5]]))).2 =
      some (.valueError
        "all the input array dimensions except for the concatenation axis must match exactly") ∧
    ¬ ((DictLikeMatrixWrapper.mk ["a"] (some [[1, 2]])).update
        (DictLikeMatrixWrapper.mk ["b"] (some [[5]]))).1.inv ∧
    ((DictLikeMatrixWrapper.mk ["a"] (some [[1, 2]])).update
        (DictLikeMatrixWrapper.mk ["b"] (some [[5]]))).1.keys.length = 2 ∧
    ((DictLikeMatrixWrapper.mk ["a"] (some [[1, 2]])).update
        (DictLikeMatrixWrapper.mk ["b"] (some [[5]]))).1.rows = 1 := by
  decide

/-- C6 (amended): the row-count-equals-field-count invariant is established by
construction from an ndarray, holds vacuously for the (broken) dict branch,
and is preserved by `__setitem__`, by `__delitem__` (which removes exactly the
key and its row) and by every `update` that completes without raising. -/
theorem container_invariant_preservation :
    (∀ (keys : List String) (data : InitData) (c : DictLikeMatrixWrapper),
        DictLikeMatrixWrapper.init keys data = .ok c → c.inv) ∧
    (∀ (c c' : DictLikeMatrixWrapper) (key : String) (v : PyVal),
        c.inv → c.setItem key v = .ok c' → c'.inv) ∧
    (∀ (c c' : DictLikeMatrixWrapper) (key : String),
        c.inv → c.delItem key = .ok c' →
          c'.inv ∧ c'.keys = c.keys.erase key ∧ c'.rows + 1 = c.rows) ∧
    (∀ (c other c' : DictLikeMatrixWrapper),
        c.inv → c.update other = (c', Option.none) → c'.inv) := by
  refine ⟨?_, ?_, ?_, ?_⟩
  · intro keys data c h
    unfold DictLikeMatrixWrapper.init at h
    cases data with
    | ndarray1 v =>
        simp only [] at h
        by_cases hl : v.length = keys.length
        · rw [if_pos hl] at h
          simp only [Except.ok.injEq] at h
          cases h
          intro m hm
          cases hm
          simpa using hl
        · rw [if_neg hl] at h; exact absurd h (by simp)
    | ndarray2 m =>
        simp only [] at h
        by_cases hl : m.length = keys.length
        · rw [if_pos hl] at h
          simp only [Except.ok.injEq] at h
          cases h
          intro m' hm'
          cases hm'
          exact hl
        · rw [if_neg hl] at h; exact absurd h (by simp)
    | dict d =>
        simp only [] at h
        simp only [Except.ok.injEq] at h
        cases h
        intro m hm
        cases hm
    | other t =>
        simp only [] at h
        exact absurd h (by simp)
  · intro c c' key v hinv h
    exact inv_setItem hinv h
  · intro c c' key hinv h
    exact inv_delItem hinv h
  · intro c other c' hinv h
    unfold DictLikeMatrixWrapper.update at h
    have h2 : (updateGo other c other.keys).2 = Option.none := by rw [h]
    have h3 := inv_updateGo other.keys c hinv h2
    rwa [h] at h3

/-- Witness for C6 at concrete containers: the invariant after an ndarray
construction, a `__setitem__`, a `__delitem__` and a completed `update`. -/
theorem container_invariant_preservation_witness :
    (DictLikeMatrixWrapper.mk ["a"] (some [[4]])).inv ∧
    (DictLikeMatrixWrapper.mk ["a", "b"] (some [[5], [2]])).inv ∧
    ((DictLikeMatrixWrapper.mk ["b"] (some [[2]])).inv ∧
      ["b"] = (["a", "b"].erase "a") ∧
      (DictLikeMatrixWrapper.mk ["b"] (some [[2]])).rows + 1 =
        (DictLikeMatrixWrapper.mk ["a", "b"] (some [[1], [2]])).rows) ∧
    (DictLikeMatrixWrapper.mk ["a", "b"] (some [[1], [3]])).inv :=
  ⟨container_invariant_preservation.1 ["a"] (.ndarray1 [4])
      ⟨["a"], some [[4]]⟩ (by decide),
   container_invariant_preservation.2.1 ⟨["a", "b"], some [[1], [2]]⟩
      ⟨["a", "b"], some [[5], [2]]⟩ "a" (.scalar 5) (by decide) (by decide),
   container_invariant_preservation.2.2.1 ⟨["a", "b"], some [[1], [2]]⟩
      ⟨["b"], some [[2]]⟩ "a" (by decide) (by decide),
   container_invariant_preservation.2.2.2 ⟨["a"], some [[1]]⟩
      ⟨["b"], some [[3]]⟩ ⟨["a", "b"], some [[1], [3]]⟩ (by decide) (by decide)⟩

/-- C8: `copy` returns a wrapper equal to the original (same keys, equal
matrix contents, `__eq__` true) whose backing matrix lives in a fresh heap
cell, so a `__setitem__` through the copy leaves every field of the original
unchanged and a `__setitem__` through the original leaves every field of the
copy unchanged. -/
theorem copy_is_value_equal_and_unaliased :
    ∀ (h : Heap) (c : WrapperRef) (r : Nat) (h' : Heap) (c' : WrapperRef)
      (r' : Nat),
      c.ref = some r → r < h.cells.length →
      WrapperRef.copy h c = .ok (h', c') → c'.ref = some r' →
      c'.keys = c.keys ∧
      r' ≠ r ∧
      h'.read r' = h.read r ∧
      h'.read r = h.read r ∧
      WrapperRef.eq h' c c' = .ok true ∧
      (∀ (key : String) (v : PyVal) (h'' : Heap),
          WrapperRef.setItem h' c' key v = .ok h'' →
          ∀ k, WrapperRef.getItem h'' c k = WrapperRef.getItem h' c k) ∧
      (∀ (key : String) (v : PyVal) (h'' : Heap),
          WrapperRef.setItem h' c key v = .ok h'' →
          ∀ k, WrapperRef.getItem h'' c' k = WrapperRef.getItem h' c' k) := by
  intro h c r h' c' r' hr hlt hcopy hr'
  unfold WrapperRef.copy at hcopy
  simp only [hr] at hcopy
  by_cases hsh : (h.read r).length = c.keys.length
  · rw [if_pos hsh] at hcopy
    simp only [Heap.alloc, Except.ok.injEq, Prod.mk.injEq] at hcopy
    obtain ⟨hh', hc'⟩ := hcopy
    have hrefs : c'.ref = some h.cells.length := by rw [← hc']
    have hr'eq : r' = h.cells.length := by
      have h12 : some r' = some h.cells.length := by rw [← hr', ← hrefs]
      exact Option.some.inj h12
    have hne : r' ≠ r := by omega
    have hreadr : h'.read r = h.read r := by
      rw [← hh']
      show ((h.cells ++ [h.read r]).get? r).getD [] = (h.cells.get? r).getD []
      rw [List.get?_append hlt]
    have hreadr' : h'.read r' = h.read r := by
      rw [← hh', hr'eq]
      show ((h.cells ++ [h.read r]).get? h.cells.length).getD [] = h.read r
      rw [List.get?_concat_length]
      rfl
    refine ⟨by rw [← hc'], hne, hreadr', hreadr, ?_, ?_, ?_⟩
    · simp only [WrapperRef.eq, hr, hrefs]
      rw [hreadr]
      rw [show h'.read h.cells.length = h.read r from by rw [← hr'eq]; exact hreadr']
      rw [← hc']
      simp
    · intro key v h'' hset k
      have hpres := setItemH_preserves_other hr' hset r (by omega)
      exact getItemH_congr h' h'' hr hpres k
    · intro key v h'' hset k
      have hpres := setItemH_preserves_other hr hset r' (by omega)
      exact getItemH_congr h' h'' hr' hpres k
  · rw [if_neg hsh] at hcopy
    exact absurd hcopy (by simp)

/-! Validation lemmas for the calc_error model. -/

theorem extractTimes_map : ∀ ts : List Rat,
    extractTimes (ts.map PyData.num) = .ok ts := by
  intro ts
  induction ts with
  | nil => rfl
  | cons t ts ih => simp [extractTimes, ih, Except.map]

theorem extractDicts_map : ∀ ds : List (List (String × Rat)),
    extractDicts (ds.map PyData.dict) = .ok ds := by
  intro ds
  induction ds with
  | nil => rfl
  | cons d ds ih => simp [extractDicts, ih, Except.map]

theorem mixedIter_map_num (ts : List Rat) :
    mixedIter (ts.map PyData.num) = false := by
  simp [mixedIter, List.any_map, PyData.isIter, Function.comp]

theorem mixedIter_map_dict (ds : List (List (String × Rat))) :
    mixedIter (ds.map PyData.dict) = false := by
  simp [mixedIter, List.any_map, PyData.isIter, Function.comp]

theorem mixedIter_map_list {A : Type} (f : A → PyData) (rs : List A)
    (hf : ∀ a, (f a).isIter = true) : mixedIter (rs.map f) = false := by
  simp [mixedIter, List.any_map, Function.comp, hf]

theorem allIter_map_num_false (ts : List Rat) :
    ((ts.map PyData.num).all PyData.isIter && !(ts.map PyData.num).isEmpty) = false := by
  cases ts with
  | nil => rfl
  | cons t ts => simp [PyData.isIter]

theorem one_le_pyFuel : ∀ x : PyData, 1 ≤ pyFuel x := by
  intro x
  cases x <;> simp [pyFuel]

theorem pyFuelList_pos {xs : List PyData} (h : xs ≠ []) : 1 ≤ pyFuelList xs := by
  cases xs with
  | nil => exact absurd rfl h
  | cons x l =>
      have := one_le_pyFuel x
      simp only [pyFuelList]
      omega

/-- A leaf run with equal lengths and at least 2 samples validates to itself. -/
theorem leaf_validate_ok (k : Nat) (loc : List Nat) (r : LeafRun)
    (h1 : r.times.length = r.inputs.length)
    (h2 : r.inputs.length = r.outputs.length)
    (hlen : 2 ≤ r.times.length) :
    validateRuns (k + 1) loc (leafTimes r) (leafInputs r) (leafOutputs r) =
      .ok [r] := by
  simp only [validateRuns, leafTimes, leafInputs, leafOutputs]
  rw [if_pos (by simp [h1, h2])]
  simp only [mixedIter_map_num, mixedIter_map_dict, allIter_map_num_false,
    Bool.false_eq_true, if_false]
  rw [if_neg (by simp; omega)]
  rw [extractTimes_map, extractDicts_map, extractDicts_map]
  rfl

/-- A leaf run with equal lengths but under 2 samples fails with the
minimum-length message at its own location. -/
theorem leaf_validate_short (k : Nat) (loc : List Nat) (r : LeafRun)
    (h1 : r.times.length = r.inputs.length)
    (h2 : r.inputs.length = r.outputs.length)
    (hshort : r.times.length < 2) :
    validateRuns (k + 1) loc (leafTimes r) (leafInputs r) (leafOutputs r) =
      .error (.valueError (twoPointsMsg loc)) := by
  simp only [validateRuns, leafTimes, leafInputs, leafOutputs]
  rw [if_pos (by simp [h1, h2])]
  simp only [mixedIter_map_num, mixedIter_map_dict, allIter_map_num_false,
    Bool.false_eq_true, if_false]
  rw [if_pos (by simpa using hshort)]

/-- A run is good when its three trajectories are equally long with at least
2 samples. -/
def goodRun (r : LeafRun) : Prop :=
  r.times.length = r.inputs.length ∧ r.inputs.length = r.outputs.length ∧
    2 ≤ r.times.length

instance (r : LeafRun) : Decidable (goodRun r) := by
  unfold goodRun
  infer_instance

/-- Iterating the runs of a two-level structure whose first too-short run
follows `pre` good runs stops with the minimum-length error at the bad run's
index. -/
theorem multi_validate_first_short (kf : Nat) (loc : List Nat) :
    ∀ (pre : List LeafRun) (bad : LeafRun) (post : List LeafRun) (idx : Nat),
      (∀ r ∈ pre, goodRun r) →
      bad.times.length = bad.inputs.length →
      bad.inputs.length = bad.outputs.length →
      bad.times.length < 2 →
      runsFold (validateRuns (kf + 1)) loc true idx
        ((pre ++ bad :: post).map leafTimes)
        ((pre ++ bad :: post).map leafInputs)
        ((pre ++ bad :: post).map leafOutputs) =
        .error (.valueError (twoPointsMsg (loc ++ [idx + pre.length]))) := by
  intro pre
  induction pre with
  | nil =>
      intro bad post idx hgood hb1 hb2 hshort
      simp only [List.nil_append, List.map_cons, runsFold, if_true]
      rw [leaf_validate_short kf (loc ++ [idx]) bad hb1 hb2 hshort]
      simp [Except.bind, bind, Except.map, Functor.map, pure, Except.pure]
  | cons p pre ih =>
      intro bad post idx hgood hb1 hb2 hshort
      simp only [List.cons_append, List.map_cons, runsFold, if_true]
      obtain ⟨g1, g2, g3⟩ := hgood p (List.mem_cons_self p pre)
      rw [leaf_validate_ok kf (loc ++ [idx]) p g1 g2 g3]
      simp only [Except.bind, bind, Except.map, Functor.map, pure, Except.pure,
        List.append_eq]
      rw [ih bad post (idx + 1) (fun r hr => hgood r (List.mem_cons_of_mem p hr))
        hb1 hb2 hshort]
      have harith : (idx + 1) + pre.length = idx + (pre.length + 1) := by omega
      simp [harith, List.length_cons]

/-- Every warning the metric phase emits is a model-instability warning. -/
theorem processAll_warnings (sim : SimFn) (dt tol : Rat) :
    ∀ (runs : List LeafRun) (ws : List Warning) (s : Rat) (c : Nat),
      processAll sim dt tol runs = .ok (ws, s, c) →
      ∀ w ∈ ws, ∃ t, w = Warning.modelUnstable t := by
  intro runs
  induction runs with
  | nil =>
      intro ws s c h w hw
      simp only [processAll, Except.ok.injEq, Prod.mk.injEq] at h
      rw [← h.1] at hw
      simp at hw
  | cons r rs ih =>
      intro ws s c h w hw
      simp only [processAll] at h
      cases ha : processRun sim dt tol r with
      | error e =>
          rw [ha] at h
          exact absurd h (by simp [Except.bind, bind, Except.map, Functor.map,
            pure, Except.pure])
      | ok a =>
          rw [ha] at h
          cases hb : processAll sim dt tol rs with
          | error e =>
              rw [hb] at h
              exact absurd h (by simp [Except.bind, bind, Except.map,
                Functor.map, pure, Except.pure])
          | ok b =>
              rw [hb] at h
              simp only [Except.bind, bind, Except.map, Functor.map, pure,
                Except.pure, Except.ok.injEq, Prod.mk.injEq] at h
              rw [← h.1] at hw
              rcases List.mem_append.mp hw with hma | hmb
              · -- a warning of the first run
                simp only [processRun] at ha
                cases hn : firstNanIdx (sim dt r.times r.inputs) with
                | none =>
                    simp only [hn] at ha
                    simp only [Except.ok.injEq] at ha
                    rw [← ha] at hma
                    simp at hma
                | some j =>
                    simp only [hn] at ha
                    by_cases hcut : r.times.getD j 0 < tol * r.times.getLastD 0
                    · rw [if_pos hcut] at ha
                      exact absurd ha (by simp)
                    · rw [if_neg hcut] at ha
                      simp only [Except.ok.injEq] at ha
                      rw [← ha] at hma
                      simp only [List.mem_singleton] at hma
                      exact ⟨r.times.getD j 0, hma⟩
              · exact ih b.1 b.2.1 b.2.2 (by rw [hb]) w hmb

/-- Evaluation of `calcError` once `dt` and `stability_tol` are valid: the
scalar validation passes and the outcome is the shape pipeline followed by the
metric phase. -/
theorem calcError_valid_args (sim : SimFn) (t i o : PyData) (dt tol : Rat)
    (hdt : 0 < dt) (htol : 0 < tol ∧ tol ≤ 1) :
    calcError sim t i o dt tol =
      match validateRuns (pyFuel t) [] t i o with
      | .error e => ⟨[], .error e⟩
      | .ok runs =>
          match processAll sim dt tol runs with
          | .error e => ⟨[], .error e⟩
          | .ok (ws, s, c) => ⟨ws, .ok (s / c)⟩ := by
  unfold calcError
  cases hv : validateRuns (pyFuel t) [] t i o with
  | error e => simp
  | ok runs =>
      simp only []
      rw [if_neg (not_le.mpr hdt), if_pos htol]
      cases hp : processAll sim dt tol runs with
      | error e => simp
      | ok res =>
          obtain ⟨ws, s, c⟩ := res
          simp

/-- A trivial re-simulation used by concrete scenarios: no output samples. -/
def simZero : SimFn := fun _ _ _ => []

/-- A valid two-sample leaf run used by concrete scenarios. -/
def twoPointRun : LeafRun := ⟨[0, 1], [[], []], [[("x", 1)], [("x", 2)]]⟩

/-- A one-sample leaf run (the spec's concrete too-short scenario). -/
def shortRun : LeafRun := ⟨[1], [[]], [[("k", 1)]]⟩

/-- A three-sample leaf run used by the instability scenarios. -/
def runThree : LeafRun := ⟨[0, 10, 20], [[], [], []],
  [[("x", 1)], [("x", 2)], [("x", 3)]]⟩

/-- A re-simulation that turns NaN at the second of three samples. -/
def nanAtSecond : SimFn := fun _ _ _ =>
  [[("x", ExtRat.fin 1)], [("x", ExtRat.nan)], [("x", ExtRat.fin 3)]]

/-- A re-simulation that turns NaN at the last of three samples. -/
def nanAtLast : SimFn := fun _ _ _ =>
  [[("x", ExtRat.fin 1)], [("x", ExtRat.fin 5)], [("x", ExtRat.nan)]]

/-- A deterministic toy model class: the simulated output field x equals the
parameter g at every sample (used to instantiate determinism concretely). -/
def sampleDyn (p : List (String × Rat)) : SimFn :=
  fun _ ts _ => ts.map (fun _ => [("x", ExtRat.fin (dictLookup p "g"))])

/-- C5: on a call that passes the shape pipeline (steps 1-3) and whose `dt` is
valid (step 4), a real-valued `stability_tol` outside (0, 1] is not fatal: the
call emits exactly one warning (stating the received value and the reset) and
then behaves exactly as if `stability_tol` were the default 0.95 - same
further warnings, same result.  The premises mirror the spec's ordered,
failure-terminal pipeline: a call that fails an earlier step never reaches the
`stability_tol` validation. -/
theorem stability_tol_reset_to_default :
    ∀ (sim : SimFn) (times inputs outputs : PyData) (dt tol : Rat)
      (runs : List LeafRun),
      validateRuns (pyFuel times) [] times inputs outputs = .ok runs →
      0 < dt → ¬(0 < tol ∧ tol ≤ 1) →
      calcError sim times inputs outputs dt tol =
        ⟨Warning.stabilityTolReset tol ::
          (calcError sim times inputs outputs dt (mkRat 95 100)).warnings,
         (calcError sim times inputs outputs dt (mkRat 95 100)).result⟩ ∧
      Warning.stabilityTolReset tol ∉
        (calcError sim times inputs outputs dt (mkRat 95 100)).warnings ∧
      (Warning.stabilityTolReset tol).message =
        "Configurable cutoff must be some float value in the domain (0, 1]. Received "
          ++ fmtNum tol ++ ". Resetting value to 0.95." := by
  intro sim t i o dt tol runs hv hdt htol
  have hdt' : ¬ dt ≤ 0 := not_le.mpr hdt
  have hdef : (0 : Rat) < mkRat 95 100 ∧ (mkRat 95 100 : Rat) ≤ 1 := by decide
  refine ⟨?_, ?_, rfl⟩
  · unfold calcError
    simp only [hv]
    rw [if_neg hdt', if_neg hdt']
    rw [if_neg htol, if_pos hdef]
    cases hp : processAll sim dt (mkRat 95 100) runs with
    | error e => simp
    | ok res =>
        obtain ⟨ws, s, c⟩ := res
        simp
  · rw [calcError_valid_args sim t i o dt (mkRat 95 100) hdt hdef]
    simp only [hv]
    cases hp : processAll sim dt (mkRat 95 100) runs with
    | error e => simp [hp]
    | ok res =>
        obtain ⟨ws, s, c⟩ := res
        simp only [hp]
        intro hmem
        obtain ⟨tf, htf⟩ := processAll_warnings sim dt (mkRat 95 100) runs
          ws s c hp _ hmem
        exact Warning.noConfusion htf

/-- Witness for C5 with `stability_tol = 70` on a valid two-sample run. -/
theorem stability_tol_reset_to_default_witness :
    calcError simZero (leafTimes twoPointRun) (leafInputs twoPointRun)
        (leafOutputs twoPointRun) 1 70 =
      ⟨Warning.stabilityTolReset 70 ::
        (calcError simZero (leafTimes twoPointRun) (leafInputs twoPointRun)
          (leafOutputs twoPointRun) 1 (mkRat 95 100)).warnings,
       (calcError simZero (leafTimes twoPointRun) (leafInputs twoPointRun)
          (leafOutputs twoPointRun) 1 (mkRat 95 100)).result⟩ ∧
    Warning.stabilityTolReset 70 ∉
      (calcError simZero (leafTimes twoPointRun) (leafInputs twoPointRun)
        (leafOutputs twoPointRun) 1 (mkRat 95 100)).warnings ∧
    (Warning.stabilityTolReset 70).message =
      "Configurable cutoff must be some float value in the domain (0, 1]. Received "
        ++ fmtNum 70 ++ ". Resetting value to 0.95." :=
  stability_tol_reset_to_default simZero (leafTimes twoPointRun)
    (leafInputs twoPointRun) (leafOutputs twoPointRun) 1 70 [twoPointRun]
    (by decide) (by norm_num) (by norm_num)

/-- C9: the embedded `calc_error` is a pure function of the model parameters
and the data, so two calls with identical arguments return equal values and
two independently constructed instances of the same model class with equal
parameter mappings produce exactly equal results on identical data. -/
theorem calc_error_deterministic :
    ∀ (dynamics : List (String × Rat) → SimFn) (p1 p2 : List (String × Rat))
      (times inputs outputs : PyData) (dt tol : Rat),
      modelCalcError dynamics p1 times inputs outputs dt tol =
        modelCalcError dynamics p1 times inputs outputs dt tol ∧
      (p1 = p2 →
        modelCalcError dynamics p1 times inputs outputs dt tol =
          modelCalcError dynamics p2 times inputs outputs dt tol) :=
  fun _ _ _ _ _ _ _ _ => ⟨rfl, fun h => by rw [h]⟩

/-- Witness for C9: two fresh instances of the toy class with the same
parameter mapping agree on a concrete run. -/
theorem calc_error_deterministic_witness :
    modelCalcError sampleDyn [("g", 2)] (leafTimes twoPointRun)
        (leafInputs twoPointRun) (leafOutputs twoPointRun) 1 1 =
      modelCalcError sampleDyn [("g", 2)] (leafTimes twoPointRun)
        (leafInputs twoPointRun) (leafOutputs twoPointRun) 1 1 :=
  (calc_error_deterministic sampleDyn [("g", 2)] [("g", 2)]
    (leafTimes twoPointRun) (leafInputs twoPointRun) (leafOutputs twoPointRun)
    1 1).2 rfl

/-- C4 (confirmed): a leaf run with fewer than 2 paired samples fails with the
"Must provide at least 2 data points" value error; when the short run sits
inside a structure of several runs the message also carries the nested
location of that run (as in the tests, a structure holding a single run
reports no location). -/
theorem min_two_data_points_error :
    (∀ (sim : SimFn) (dt tol : Rat) (r : LeafRun),
        0 < dt → 0 < tol ∧ tol ≤ 1 →
        r.times.length = r.inputs.length →
        r.inputs.length = r.outputs.length →
        r.times.length < 2 →
        calcError sim (leafTimes r) (leafInputs r) (leafOutputs r) dt tol =
          ⟨[], .error (.valueError (twoPointsMsg []))⟩) ∧
    (∀ (sim : SimFn) (dt tol : Rat) (pre : List LeafRun) (bad : LeafRun)
        (post : List LeafRun),
        0 < dt → 0 < tol ∧ tol ≤ 1 →
        (∀ r ∈ pre, goodRun r) →
        bad.times.length = bad.inputs.length →
        bad.inputs.length = bad.outputs.length →
        bad.times.length < 2 →
        0 < pre.length + post.length →
        calcError sim (multiTimes (pre ++ bad :: post))
          (multiInputs (pre ++ bad :: post))
          (multiOutputs (pre ++ bad :: post)) dt tol =
          ⟨[], .error (.valueError (twoPointsMsg [pre.length]))⟩) := by
  constructor
  · intro sim dt tol r hdt htol h1 h2 hshort
    rw [calcError_valid_args sim _ _ _ dt tol hdt htol]
    rw [show pyFuel (leafTimes r) =
      pyFuelList (r.times.map PyData.num) + 1 from rfl]
    rw [leaf_validate_short _ [] r h1 h2 hshort]
  · intro sim dt tol pre bad post hdt htol hgood hb1 hb2 hshort hlen
    rw [calcError_valid_args sim _ _ _ dt tol hdt htol]
    rw [show pyFuel (multiTimes (pre ++ bad :: post)) =
      pyFuelList ((pre ++ bad :: post).map leafTimes) + 1 from rfl]
    simp only [validateRuns, multiTimes, multiInputs, multiOutputs]
    rw [if_pos (by simp)]
    have hne : (pre ++ bad :: post) ≠ [] := by cases pre <;> simp
    have hallne : ((pre ++ bad :: post).map leafTimes) ≠ [] := by
      simp [hne]
    rw [mixedIter_map_list leafTimes _ (fun a => rfl)]
    rw [mixedIter_map_list leafInputs _ (fun a => rfl)]
    rw [mixedIter_map_list leafOutputs _ (fun a => rfl)]
    have hall : (((pre ++ bad :: post).map leafTimes).all PyData.isIter &&
        !((pre ++ bad :: post).map leafTimes).isEmpty) = true := by
      rw [Bool.and_eq_true]
      constructor
      · simp [List.all_map, leafTimes, PyData.isIter, Function.comp]
      · simp [List.isEmpty_iff, hallne]
    rw [hall]
    have happ : decide (1 < ((pre ++ bad :: post).map leafTimes).length) = true := by
      rw [decide_eq_true_eq]
      simp only [List.length_map, List.length_append, List.length_cons]
      omega
    rw [happ]
    simp only [Bool.false_eq_true, if_false, if_true]
    have hpos : 1 ≤ pyFuelList ((pre ++ bad :: post).map leafTimes) :=
      pyFuelList_pos hallne
    obtain ⟨kf, hkf⟩ : ∃ kf,
        pyFuelList ((pre ++ bad :: post).map leafTimes) = kf + 1 :=
      ⟨pyFuelList ((pre ++ bad :: post).map leafTimes) - 1, by omega⟩
    rw [hkf]
    rw [multi_validate_first_short kf [] pre bad post 0 hgood hb1 hb2 hshort]
    simp

/-- Witness for C4: the spec's one-sample scenario at top level (no location)
and a two-run structure whose second run is short (location `(1)`). -/
theorem min_two_data_points_error_witness :
    calcError simZero (leafTimes shortRun) (leafInputs shortRun)
        (leafOutputs shortRun) 1 1 =
      ⟨[], .error (.valueError (twoPointsMsg []))⟩ ∧
    calcError simZero (multiTimes [twoPointRun, shortRun])
        (multiInputs [twoPointRun, shortRun])
        (multiOutputs [twoPointRun, shortRun]) 1 1 =
      ⟨[], .error (.valueError (twoPointsMsg [1]))⟩ :=
  ⟨min_two_data_points_error.1 simZero 1 1 shortRun (by norm_num) (by norm_num)
      (by decide) (by decide) (by decide),
   min_two_data_points_error.2 simZero 1 1 [twoPointRun] shortRun []
      (by norm_num) (by norm_num) (by decide) (by decide) (by decide)
      (by decide) (by decide)⟩

/-- C2 counterexample: the iterability-raggedness input of the test suite
(times `[[0, [1], 2, 3], [0, 1, 2, 3]]`, where times[0][1] is iterable while
the sibling inputs[0][1] is a leaf dict) fails with the "Some, but not all
elements, are iterable" message whose location is the bare index 0 - the
message is not a length-mismatch error and contains no tuple of indices. -/
theorem ragged_location_not_a_tuple :
    calcError simZero
      (.list [.list [.num 0, .list [.num 1], .num 2, .num 3],
              .list [.num 0, .num 1, .num 2, .num 3]])
      (.list [.list [.dict [], .dict [], .dict [], .dict []],
              .list [.dict [], .dict [], .dict [], .dict []]])
      (.list [.list [.dict [("x", 1)], .dict [("x", 2)], .dict [("x", 3)], .dict [("x", 4)]],
              .list [.dict [("x", 1)], .dict [("x", 2)], .dict [("x", 3)], .dict [("x", 4)]]])
      1 1 =
      ⟨[], .error (.valueError
        "Some, but not all elements, are iterable for argument times at data location 0.")⟩ ∧
    (PyData.list [.num 1]).isIter = true ∧
    (PyData.dict []).isIter = false ∧
    strContains
      "Some, but not all elements, are iterable for argument times at data location 0."
      "(" = false := by
  decide

/-- C2 (amended): an element-count mismatch among times/inputs/outputs fails
with the length-mismatch value error naming the nested location as a tuple of
indices (and no location at top level), while iterability raggedness (some but
not all elements iterable) fails with a different value error naming the
argument and rendering the location bare; the nested "(0, 1)" scenario of the
test suite is reproduced through `calcError`. -/
theorem length_mismatch_and_ragged_messages :
    (∀ (k : Nat) (loc : List Nat) (ts is os : List PyData),
        ¬(ts.length = is.length ∧ is.length = os.length) →
        validateRuns (k + 1) loc (.list ts) (.list is) (.list os) =
          .error (.valueError (lengthsMsg loc ts.length is.length os.length))) ∧
    (∀ (k : Nat) (loc : List Nat) (ts is os : List PyData),
        ts.length = is.length → is.length = os.length →
        mixedIter ts = true →
        validateRuns (k + 1) loc (.list ts) (.list is) (.list os) =
          .error (.valueError (someIterMsg "times" loc))) ∧
    calcError simZero
      (.list [.list [.list [.num 1, .num 2], .list [.num 1]],
              .list [.list [.num 1, .num 2], .list [.num 1, .num 2]]])
      (.list [.list [.list [.dict [], .dict []], .list [.dict [], .dict []]],
              .list [.list [.dict [], .dict []], .list [.dict [], .dict []]]])
      (.list [.list [.list [.dict [("x", 1)], .dict [("x", 2)]],
                     .list [.dict [("x", 1)], .dict [("x", 2)]]],
              .list [.list [.dict [("x", 1)], .dict [("x", 2)]],
                     .list [.dict [("x", 1)], .dict [("x", 2)]]]])
      1 1 =
      ⟨[], .error (.valueError
        "Times, inputs, and outputs must all be the same length. Current lengths at data location (0, 1): times = 1, inputs = 2, outputs = 2.")⟩ := by
  refine ⟨?_, ?_, by decide⟩
  · intro k loc ts is os hmis
    simp only [validateRuns]
    rw [if_neg hmis]
  · intro k loc ts is os h1 h2 hmix
    simp only [validateRuns]
    rw [if_pos ⟨h1, h2⟩]
    simp only [hmix, if_true]

/-- Witness for C2 at concrete nested locations: a count mismatch at location
(0, 1) renders the tuple, iterability raggedness at location 0 renders the
bare index. -/
theorem length_mismatch_and_ragged_messages_witness :
    validateRuns 1 [0, 1] (.list [.num 1]) (.list [.dict [], .dict []])
        (.list [.dict [], .dict []]) =
      .error (.valueError (lengthsMsg [0, 1] 1 2 2)) ∧
    validateRuns 1 [0] (.list [.num 0, .list [.num 1]])
        (.list [.dict [], .dict []]) (.list [.dict [], .dict []]) =
      .error (.valueError (someIterMsg "times" [0])) :=
  ⟨length_mismatch_and_ragged_messages.1 0 [0, 1] [.num 1]
      [.dict [], .dict []] [.dict [], .dict []] (by decide),
   length_mismatch_and_ragged_messages.2.1 0 [0] [.num 0, .list [.num 1]]
      [.dict [], .dict []] [.dict [], .dict []] (by decide) (by decide)
      (by decide)⟩

/-- C1 (confirmed): when re-simulating a valid leaf run first turns NaN at
sample `j` (failure time `times[j]`), `calc_error` compares the failure time
against the cutoff `stability_tol` times the run duration: strictly before
the cutoff it raises the value error reporting the failure time, the cutoff
value and its percentage; at or after the cutoff it instead succeeds, emits
the instability warning reporting the failure time, and computes the metric
only over the samples before `j`. -/
theorem instability_cutoff_policy :
    ∀ (sim : SimFn) (dt tol : Rat) (r : LeafRun) (j : Nat),
      0 < dt → 0 < tol ∧ tol ≤ 1 →
      r.times.length = r.inputs.length →
      r.inputs.length = r.outputs.length →
      2 ≤ r.times.length →
      firstNanIdx (sim dt r.times r.inputs) = some j →
      (r.times.getD j 0 < tol * r.times.getLastD 0 →
        calcError sim (leafTimes r) (leafInputs r) (leafOutputs r) dt tol =
          ⟨[], .error (.valueError (unstableErrMsg (r.times.getD j 0)
            (tol * r.times.getLastD 0) tol))⟩) ∧
      (tol * r.times.getLastD 0 ≤ r.times.getD j 0 →
        calcError sim (leafTimes r) (leafInputs r) (leafOutputs r) dt tol =
          ⟨[Warning.modelUnstable (r.times.getD j 0)],
           .ok ((accumSq ((r.outputs.zip (sim dt r.times r.inputs)).take j)).1 /
             ((accumSq ((r.outputs.zip (sim dt r.times r.inputs)).take j)).2 : Nat))⟩) := by
  intro sim dt tol r j hdt htol h1 h2 hlen hnan
  have hbase := calcError_valid_args sim (leafTimes r) (leafInputs r)
    (leafOutputs r) dt tol hdt htol
  rw [show pyFuel (leafTimes r) =
    pyFuelList (r.times.map PyData.num) + 1 from rfl] at hbase
  rw [leaf_validate_ok _ [] r h1 h2 hlen] at hbase
  constructor
  · intro hlt
    rw [hbase]
    simp only [processAll, processRun, hnan]
    rw [if_pos hlt]
    simp [Except.bind, bind, Except.map, Functor.map, pure, Except.pure]
  · intro hge
    rw [hbase]
    simp only [processAll, processRun, hnan]
    rw [if_neg (not_lt.mpr hge)]
    simp [Except.bind, bind, Except.map, Functor.map, pure, Except.pure]

/-- Witness for C1: on a 3-sample run of duration 20 with `stability_tol = 1`,
a NaN at t=10 (before the cutoff 20) raises the cutoff error, while a NaN at
t=20 (at the cutoff) warns and returns the metric over the first 2 samples. -/
theorem instability_cutoff_policy_witness :
    calcError nanAtSecond (leafTimes runThree) (leafInputs runThree)
        (leafOutputs runThree) 1 1 =
      ⟨[], .error (.valueError (unstableErrMsg (runThree.times.getD 1 0)
        (1 * runThree.times.getLastD 0) 1))⟩ ∧
    calcError nanAtLast (leafTimes runThree) (leafInputs runThree)
        (leafOutputs runThree) 1 1 =
      ⟨[Warning.modelUnstable (runThree.times.getD 2 0)],
       .ok ((accumSq ((runThree.outputs.zip
           (nanAtLast 1 runThree.times runThree.inputs)).take 2)).1 /
         ((accumSq ((runThree.outputs.zip
           (nanAtLast 1 runThree.times runThree.inputs)).take 2)).2 : Nat))⟩ :=
  ⟨(instability_cutoff_policy nanAtSecond 1 1 runThree 1 (by norm_num)
      (by norm_num) (by decide) (by decide) (by decide) (by decide)).1
      (by show (10 : Rat) < 1 * 20; norm_num),
   (instability_cutoff_policy nanAtLast 1 1 runThree 2 (by norm_num)
      (by norm_num) (by decide) (by decide) (by decide) (by decide)).2
      (by show (1 : Rat) * 20 ≤ 20; norm_num)⟩

/-- Witness for C8 at a one-cell heap: the copy allocates cell 1, is equal to
the original, and writes through either wrapper leave the other unchanged. -/
theorem copy_is_value_equal_and_unaliased_witness :
    (WrapperRef.mk ["a"] (some 1)).keys = (WrapperRef.mk ["a"] (some 0)).keys ∧
    (1 : Nat) ≠ 0 ∧
    (Heap.mk [[[1]], [[1]]]).read 1 = (Heap.mk [[[1]]]).read 0 ∧
    (Heap.mk [[[1]], [[1]]]).read 0 = (Heap.mk [[[1]]]).read 0 ∧
    WrapperRef.eq (Heap.mk [[[1]], [[1]]]) (WrapperRef.mk ["a"] (some 0))
      (WrapperRef.mk ["a"] (some 1)) = .ok true ∧
    (∀ (key : String) (v : PyVal) (h'' : Heap),
        WrapperRef.setItem (Heap.mk [[[1]], [[1]]]) (WrapperRef.mk ["a"] (some 1))
          key v = .ok h'' →
        ∀ k, WrapperRef.getItem h'' (WrapperRef.mk ["a"] (some 0)) k =
          WrapperRef.getItem (Heap.mk [[[1]], [[1]]]) (WrapperRef.mk ["a"] (some 0)) k) ∧
    (∀ (key : String) (v : PyVal) (h'' : Heap),
        WrapperRef.setItem (Heap.mk [[[1]], [[1]]]) (WrapperRef.mk ["a"] (some 0))
          key v = .ok h'' →
        ∀ k, WrapperRef.getItem h'' (WrapperRef.mk ["a"] (some 1)) k =
          WrapperRef.getItem (Heap.mk [[[1]], [[1]]]) (WrapperRef.mk ["a"] (some 1)) k) :=
  copy_is_value_equal_and_unaliased (Heap.mk [[[1]]]) (WrapperRef.mk ["a"] (some 0))
    0 (Heap.mk [[[1]], [[1]]]) (WrapperRef.mk ["a"] (some 1)) 1 rfl (by decide)
    (by decide) rfl

end ProgModels
